import Mathlib

/-!
Verification of the GSC SEO dashboard's comparison and aggregation logic.

The development shallowly embeds the Python source files `utils.py`,
`gsc_api.py` and `app.py`: numeric values are modelled as rationals,
dataframes as lists of row structures, and the external Search Console
provider as an explicit `Except`-valued argument.  Each theorem states one
property of the embedded code.
-/

namespace GscDashboard

/-- Embedding of `calculate_growth` (src/utils.py lines 9-13):
`if previous_value == 0: return 0 if current_value == 0 else 100`,
otherwise `((current_value - previous_value) / previous_value) * 100`. -/
def calculate_growth (current_value previous_value : ℚ) : ℚ :=
  if previous_value = 0 then (if current_value = 0 then 0 else 100)
  else ((current_value - previous_value) / previous_value) * 100

/-! ## Keyword rows and headline aggregates -/

/-- One keyword result row as produced by `query_data`: a query string with
clicks, impressions, ctr and average position columns. -/
structure KeywordRow where
  query : String
  clicks : ℚ
  impressions : ℚ
  ctr : ℚ
  position : ℚ
deriving DecidableEq

/-- `df['clicks'].sum()` (src/app.py line 198). -/
def total_clicks (df : List KeywordRow) : ℚ := (df.map KeywordRow.clicks).sum

/-- `df['impressions'].sum()` (src/app.py line 199). -/
def total_impressions (df : List KeywordRow) : ℚ :=
  (df.map KeywordRow.impressions).sum

/-- `df['ctr'].mean() * 100` (src/app.py line 200). -/
def avg_ctr (df : List KeywordRow) : ℚ :=
  ((df.map KeywordRow.ctr).sum / (df.length : ℚ)) * 100

/-- `df['position'].mean()` (src/app.py line 201). -/
def avg_position (df : List KeywordRow) : ℚ :=
  (df.map KeywordRow.position).sum / (df.length : ℚ)

/-- The four period-over-period deltas computed at src/app.py lines 215-218. -/
structure MetricChanges where
  clicks_change : ℚ
  impressions_change : ℚ
  ctr_change : ℚ
  position_change : ℚ
deriving DecidableEq

/-- Embedding of the delta computation at src/app.py lines 204-218: the four
changes stay `None` unless `compare_enabled and df_compare is not None and
not df_compare.empty`; inside the branch each delta is `calculate_growth`
of the corresponding aggregates, with the position delta negated. -/
def computeMetricChanges (compare_enabled : Bool) (df : List KeywordRow)
    (df_compare : Option (List KeywordRow)) : Option MetricChanges :=
  match df_compare with
  | none => none
  | some dfc =>
    if compare_enabled ∧ dfc ≠ [] then
      some { clicks_change :=
               calculate_growth (total_clicks df) (total_clicks dfc),
             impressions_change :=
               calculate_growth (total_impressions df) (total_impressions dfc),
             ctr_change := calculate_growth (avg_ctr df) (avg_ctr dfc),
             position_change :=
               -calculate_growth (avg_position df) (avg_position dfc) }
    else none

/-! ## Date arithmetic and the comparison window

Python's `datetime.date` arithmetic is day-based on the proleptic Gregorian
calendar; we embed dates through their `date.toordinal()` value (day 1 is
0001-01-01), so `date - timedelta(days=k)` is ordinal subtraction. -/

/-- Gregorian leap-year test, as used by `datetime.date`. -/
def isLeapYear (y : ℤ) : Bool :=
  (y % 4 == 0 && y % 100 != 0) || y % 400 == 0

/-- Number of days in month `m` of year `y`. -/
def daysInMonth (y : ℤ) (m : ℕ) : ℤ :=
  if m = 2 then (if isLeapYear y then 29 else 28)
  else if m = 4 ∨ m = 6 ∨ m = 9 ∨ m = 11 then 30
  else 31

/-- Days in all years before year `y`. -/
def daysBeforeYear (y : ℤ) : ℤ :=
  365 * (y - 1) + (y - 1).fdiv 4 - (y - 1).fdiv 100 + (y - 1).fdiv 400

/-- Days in year `y` before month `m`. -/
def daysBeforeMonth (y : ℤ) (m : ℕ) : ℤ :=
  (((List.range (m - 1)).map fun i => daysInMonth y (i + 1)).sum)

/-- `datetime.date(y, m, d).toordinal()`. -/
def dateOrdinal (y : ℤ) (m : ℕ) (d : ℤ) : ℤ :=
  daysBeforeYear y + daysBeforeMonth y m + d

/-- The comparison window of `load_comparison_data` (src/app.py lines
100-101): `end_date = today - days; start_date = end_date - days`, as a
(start, end) pair of day ordinals. -/
def comparisonWindow (today days : ℤ) : ℤ × ℤ :=
  (today - days - days, today - days)

/-- The primary window of `get_keyword_data` (src/gsc_api.py lines 157-158):
`start_date = today - days, end_date = today`. -/
def primaryWindow (today days : ℤ) : ℤ × ℤ :=
  (today - days, today)

/-- A day belongs to a window; both endpoint dates are inclusive in the
Search Console query contract (`startDate`/`endDate`). -/
def inWindow (w : ℤ × ℤ) (d : ℤ) : Prop := w.1 ≤ d ∧ d ≤ w.2

/-! ## The Search Console request and the provider boundary -/

/-- One equality predicate of a dimension filter group, as built at
src/gsc_api.py lines 111-121. -/
structure DimensionFilter where
  dimension : String
  operator : String
  expression : String
deriving DecidableEq

/-- The request body built by `query_data` (src/gsc_api.py lines 101-126).
`dimensionFilterGroups` is `none` when the key is absent from the request
dict; each group is the list of its filters. -/
structure GSCRequest where
  startDate : String
  endDate : String
  dimensions : List String
  rowLimit : ℕ
  dimensionFilterGroups : Option (List (List DimensionFilter))
deriving DecidableEq

/-- `app.py` passes `device_type if device_type != "全部" else None`
(src/app.py lines 87-88 and 110-111): the locale sentinel is normalized to
an absent selection. -/
def normalizeSelection (s : String) : Option String :=
  if s = "全部" then none else some s

/-- The filters contributed by one optional selection: Python's
`if device_type:` is falsy on both `None` and the empty string
(src/gsc_api.py lines 110-121). -/
def filtersFor (dim : String) (v : Option String) : List DimensionFilter :=
  match v with
  | none => []
  | some s => if s = "" then [] else [⟨dim, "equals", s⟩]

/-- The request construction of `query_data` (src/gsc_api.py lines 101-126):
base fields, then `dimensionFilterGroups` set to a single group holding the
device and country equality filters only when at least one is present. -/
def buildRequest (start_date end_date : String) (dimensions : List String)
    (row_limit : ℕ) (device_type country : Option String) : GSCRequest :=
  let dimension_filters :=
    filtersFor "device" device_type ++ filtersFor "country" country
  { startDate := start_date
    endDate := end_date
    dimensions := dimensions
    rowLimit := row_limit
    dimensionFilterGroups :=
      if dimension_filters ≠ [] then some [dimension_filters] else none }

/-- An API-level provider error (`googleapiclient.errors.HttpError`). -/
structure HttpErr where
  code : ℕ
  message : String

/-- One row of a provider response: dimension key values plus the four
metric columns. -/
structure ApiRow where
  keys : List String
  clicks : ℚ
  impressions : ℚ
  ctr : ℚ
  position : ℚ

/-- A provider query response; `rows` is `none` when the `'rows'` key is
absent (src/gsc_api.py line 132). -/
structure QueryResponse where
  rows : Option (List ApiRow)

/-- One output row of `query_data`: the dimension values zipped with the
dimension names, plus the metric columns (src/gsc_api.py lines 136-145). -/
structure OutRow where
  dimVals : List (String × String)
  clicks : ℚ
  impressions : ℚ
  ctr : ℚ
  position : ℚ

/-- One entry of the `sites().list()` response. -/
structure SiteEntry where
  siteUrl : String

/-- The `sites().list()` response; `siteEntry` is `none` when the key is
absent (`site_list.get('siteEntry', [])`, src/gsc_api.py line 92). -/
structure SitesListResponse where
  siteEntry : Option (List SiteEntry)

/-- Embedding of `get_sites` (src/gsc_api.py lines 88-95): on an
`HttpError` the except branch returns `[]`; otherwise the `siteUrl` of each
entry of `siteEntry` (defaulting to the empty list). -/
def get_sites (resp : Except HttpErr SitesListResponse) : List String :=
  match resp with
  | .error _ => []
  | .ok site_list => (site_list.siteEntry.getD []).map SiteEntry.siteUrl

/-- Embedding of `query_data` (src/gsc_api.py lines 97-152): build the
request, hand it to the provider, and convert the response rows; an
`HttpError` from the provider or an absent `'rows'` key yields the empty
result set. -/
def query_data (start_date end_date : String) (dimensions : List String)
    (row_limit : ℕ) (device_type country : Option String)
    (provider : GSCRequest → Except HttpErr QueryResponse) : List OutRow :=
  let request :=
    buildRequest start_date end_date dimensions row_limit device_type country
  match provider request with
  | .error _ => []
  | .ok response =>
    match response.rows with
    | none => []
    | some rows =>
      rows.map fun row =>
        { dimVals := dimensions.zip row.keys
          clicks := row.clicks
          impressions := row.impressions
          ctr := row.ctr
          position := row.position }

/-! ## Top-N selection

`pandas.DataFrame.nsmallest(n, col)` (with the default `keep='first'`)
returns the first `n` rows under a stable ascending sort by `col`, and
`nlargest` the first `n` under a stable descending sort; we embed both with
`List.insertionSort`, which is stable. -/

/-- `df.nsmallest(n, col)` for a column selector `key`. -/
def nsmallestBy (n : ℕ) (key : KeywordRow → ℚ) (df : List KeywordRow) :
    List KeywordRow :=
  (df.insertionSort fun a b => key a ≤ key b).take n

/-- `df.nlargest(n, col)` for a column selector `key`. -/
def nlargestBy (n : ℕ) (key : KeywordRow → ℚ) (df : List KeywordRow) :
    List KeywordRow :=
  (df.insertionSort fun a b => key b ≤ key a).take n

/-- Column access by the sort-key name used in the selectbox
(src/app.py lines 257-266). -/
def columnValue (c : String) (r : KeywordRow) : ℚ :=
  if c = "clicks" then r.clicks
  else if c = "impressions" then r.impressions
  else if c = "ctr" then r.ctr
  else r.position

/-- The top-N selection of src/app.py lines 269-272:
`df.nsmallest(n, sort_by)` when `sort_by == "position"`, else
`df.nlargest(n, sort_by)`; the app instantiates `n = 20`. -/
def top_n_selection (sort_by : String) (n : ℕ) (df : List KeywordRow) :
    List KeywordRow :=
  if sort_by = "position" then nsmallestBy n KeywordRow.position df
  else nlargestBy n (columnValue sort_by) df

/-- `df_sorted` as computed in the app (src/app.py lines 269-272). -/
def df_sorted (sort_by : String) (df : List KeywordRow) : List KeywordRow :=
  top_n_selection sort_by 20 df

/-! ## Session state -/

/-- The per-session cache (src/app.py lines 49-52). -/
structure SessionState where
  keyword_data : Option (List KeywordRow)
  comparison_data : Option (List KeywordRow)
deriving DecidableEq

/-- Embedding of `load_keyword_data` (src/app.py lines 80-96) applied to the
result set `df` fetched for this load: when `df.empty` the function warns
and returns `None` without touching the session; otherwise it stores `df`
in `session_state.keyword_data` and returns it. -/
def load_keyword_data (state : SessionState) (df : List KeywordRow) :
    SessionState × Option (List KeywordRow) :=
  if df = [] then (state, none)
  else ({ state with keyword_data := some df }, some df)

/-- Embedding of `load_comparison_data` (src/app.py lines 98-115) applied to
the result set `df` fetched for this load: it unconditionally stores `df`
in `session_state.comparison_data` and returns it. -/
def load_comparison_data (state : SessionState) (df : List KeywordRow) :
    SessionState × List KeywordRow :=
  ({ state with comparison_data := some df }, df)

/-! ## Keyword trend -/

/-- One parsed row of the per-date trend response; the date is embedded as
its day ordinal (`pd.to_datetime` of an ISO date string is monotone in the
ordinal). -/
structure TrendRow where
  date : ℤ
  clicks : ℚ
  impressions : ℚ
  ctr : ℚ
  position : ℚ

/-- Model of `get_keyword_trend` (src/gsc_api.py lines 170-213) with its
final `df = df.sort_values('date')` applied as the surrounding code
intends.  In the source that line (line 208) is dedented to column 0,
which is a Python syntax error inside the `try` block, so the module as
committed cannot even be imported; this definition models the evident
intent of lines 206-209. -/
def get_keyword_trend (resp : Except HttpErr (Option (List TrendRow))) :
    List TrendRow :=
  match resp with
  | .error _ => []
  | .ok none => []
  | .ok (some rows) => rows.insertionSort fun a b => a.date ≤ b.date

end GscDashboard

namespace GscDashboard

/-- C1: `calculate_growth` returns 0 when both arguments are 0, returns 100
when only the previous value is 0, and otherwise returns
`((current - previous) / previous) * 100`. -/
theorem calculate_growth_cases (current_value previous_value : ℚ) :
    (previous_value = 0 → current_value = 0 →
      calculate_growth current_value previous_value = 0) ∧
    (previous_value = 0 → current_value ≠ 0 →
      calculate_growth current_value previous_value = 100) ∧
    (previous_value ≠ 0 →
      calculate_growth current_value previous_value =
        ((current_value - previous_value) / previous_value) * 100) := by
  refine ⟨fun hp hc => by simp [calculate_growth, hp, hc],
    fun hp hc => by simp [calculate_growth, hp, hc],
    fun hp => by simp [calculate_growth, hp]⟩

/-- Witness for C1 at the spec's own example inputs. -/
theorem calculate_growth_cases_witness :
    calculate_growth 0 0 = 0 ∧ calculate_growth 5 0 = 100 ∧
      calculate_growth 150 100 = ((150 - 100) / 100) * 100 := by
  refine ⟨(calculate_growth_cases 0 0).1 rfl rfl,
    (calculate_growth_cases 5 0).2.1 rfl (by norm_num),
    (calculate_growth_cases 150 100).2.2 (by norm_num)⟩

/-- C8: `calculate_growth x x = 0` for every rational `x`, including `x = 0`. -/
theorem calculate_growth_self (x : ℚ) : calculate_growth x x = 0 := by
  by_cases hx : x = 0 <;> simp [calculate_growth, hx]

/-- C10: for non-negative inputs the growth rate is at least `-100`, with
equality exactly when the current value is 0 and the previous value is
positive; and for positive previous values the result is unbounded above. -/
theorem calculate_growth_lower_bound :
    (∀ current_value previous_value : ℚ, 0 ≤ current_value →
      0 ≤ previous_value →
      -100 ≤ calculate_growth current_value previous_value ∧
        (calculate_growth current_value previous_value = -100 ↔
          current_value = 0 ∧ 0 < previous_value)) ∧
    (∀ M : ℚ, ∃ current_value previous_value : ℚ,
      0 ≤ current_value ∧ 0 < previous_value ∧
        M < calculate_growth current_value previous_value) := by
  constructor
  · intro c p hc hp
    by_cases hp0 : p = 0
    · subst hp0
      by_cases hc0 : c = 0
      · simp [calculate_growth, hc0]
      · simp [calculate_growth, hc0]
        norm_num
    · have hpos : 0 < p := lt_of_le_of_ne hp (Ne.symm hp0)
      have hkey : calculate_growth c p = (c / p - 1) * 100 := by
        simp only [calculate_growth, if_neg hp0]
        field_simp
      have hdiv : 0 ≤ c / p := div_nonneg hc hp
      constructor
      · rw [hkey]; nlinarith
      · rw [hkey]
        constructor
        · intro h
          have hcp : c / p = 0 := by nlinarith
          have hc0 : c = 0 := by
            rcases div_eq_zero_iff.mp hcp with h0 | h0
            · exact h0
            · exact absurd h0 hp0
          exact ⟨hc0, hpos⟩
        · rintro ⟨hc0, -⟩
          rw [hc0]
          norm_num
  · intro M
    refine ⟨|M| + 2, 1, by positivity, one_pos, ?_⟩
    have h1 : calculate_growth (|M| + 2) 1 = (|M| + 1) * 100 := by
      simp [calculate_growth]
      ring
    have h2 : M ≤ |M| := le_abs_self M
    rw [h1]
    nlinarith [abs_nonneg M]

/-- Witness for C10: the bound is attained at `(0, 1)` and exceeded past 50. -/
theorem calculate_growth_lower_bound_witness :
    (-100 ≤ calculate_growth 0 1 ∧
      (calculate_growth 0 1 = -100 ↔ (0 : ℚ) = 0 ∧ (0 : ℚ) < 1)) ∧
    (∃ current_value previous_value : ℚ,
      0 ≤ current_value ∧ 0 < previous_value ∧
        50 < calculate_growth current_value previous_value) :=
  ⟨calculate_growth_lower_bound.1 0 1 le_rfl zero_le_one,
    calculate_growth_lower_bound.2 50⟩

/-- C2: whenever the comparison toggle is on and the comparison set is present
and non-empty, the displayed position delta is the negation of
`calculate_growth` on the average positions while the clicks, impressions and
CTR deltas are `calculate_growth` applied directly; at current average
position 8 versus previous 10 the displayed position change is `+20`. -/
theorem position_delta_sign_inversion :
    (∀ (df dfc : List KeywordRow), dfc ≠ [] →
      computeMetricChanges true df (some dfc) =
        some { clicks_change :=
                 calculate_growth (total_clicks df) (total_clicks dfc),
               impressions_change :=
                 calculate_growth (total_impressions df)
                   (total_impressions dfc),
               ctr_change := calculate_growth (avg_ctr df) (avg_ctr dfc),
               position_change :=
                 -calculate_growth (avg_position df) (avg_position dfc) }) ∧
    ((computeMetricChanges true
        [⟨"a", 3, 30, 1, 7⟩, ⟨"b", 5, 50, 1, 9⟩]
        (some [⟨"c", 4, 40, 1, 10⟩])).map MetricChanges.position_change =
      some 20) := by
  constructor
  · intro df dfc h
    simp [computeMetricChanges, h]
  · have havg : avg_position [⟨"a", 3, 30, 1, 7⟩, ⟨"b", 5, 50, 1, 9⟩] = 8 := by
      simp [avg_position]
      norm_num
    have havg' : avg_position [(⟨"c", 4, 40, 1, 10⟩ : KeywordRow)] = 10 := by
      simp [avg_position]
    simp [computeMetricChanges, havg, havg', calculate_growth]
    norm_num

/-- Witness for C2: the general clause applied to singleton result sets. -/
theorem position_delta_sign_inversion_witness :
    computeMetricChanges true [⟨"x", 1, 2, 1, 4⟩] (some [⟨"y", 2, 4, 1, 8⟩]) =
      some { clicks_change :=
               calculate_growth (total_clicks [⟨"x", 1, 2, 1, 4⟩])
                 (total_clicks [⟨"y", 2, 4, 1, 8⟩]),
             impressions_change :=
               calculate_growth (total_impressions [⟨"x", 1, 2, 1, 4⟩])
                 (total_impressions [⟨"y", 2, 4, 1, 8⟩]),
             ctr_change :=
               calculate_growth (avg_ctr [⟨"x", 1, 2, 1, 4⟩])
                 (avg_ctr [⟨"y", 2, 4, 1, 8⟩]),
             position_change :=
               -calculate_growth (avg_position [⟨"x", 1, 2, 1, 4⟩])
                 (avg_position [⟨"y", 2, 4, 1, 8⟩]) } :=
  position_delta_sign_inversion.1 [⟨"x", 1, 2, 1, 4⟩] [⟨"y", 2, 4, 1, 8⟩]
    (by simp)

/-- C3 counterexample: at `days = 30` and today = 2024-03-31 the day
2024-03-01 belongs to both the comparison window and the primary window
(both endpoints are inclusive), so the two windows are not non-overlapping
as the claim states: they share the boundary day `today - days`. -/
theorem comparison_window_overlap_boundary :
    inWindow (comparisonWindow (dateOrdinal 2024 3 31) 30)
        (dateOrdinal 2024 3 1) ∧
      inWindow (primaryWindow (dateOrdinal 2024 3 31) 30)
        (dateOrdinal 2024 3 1) := by
  refine ⟨⟨?_, ?_⟩, ?_, ?_⟩ <;> decide

/-- C3 amended: the comparison window is `[today - 2*days, today - days]`
and the primary window is `[today - days, today]`; they have equal length
and abut, sharing exactly the boundary day `today - days` (with inclusive
endpoints the overlap is exactly that one day, not empty); at `days = 30`,
today = 2024-03-31 the windows are `[2024-01-31, 2024-03-01]` and
`[2024-03-01, 2024-03-31]`. -/
theorem comparison_window_spec :
    (∀ today days : ℤ,
      (comparisonWindow today days).2 = today - days ∧
      (comparisonWindow today days).1 = (comparisonWindow today days).2 - days ∧
      primaryWindow today days = (today - days, today) ∧
      (comparisonWindow today days).2 = (primaryWindow today days).1 ∧
      (comparisonWindow today days).2 - (comparisonWindow today days).1 =
        (primaryWindow today days).2 - (primaryWindow today days).1 ∧
      (∀ d : ℤ, inWindow (comparisonWindow today days) d →
        inWindow (primaryWindow today days) d → d = today - days)) ∧
    comparisonWindow (dateOrdinal 2024 3 31) 30 =
      (dateOrdinal 2024 1 31, dateOrdinal 2024 3 1) ∧
    primaryWindow (dateOrdinal 2024 3 31) 30 =
      (dateOrdinal 2024 3 1, dateOrdinal 2024 3 31) := by
  refine ⟨fun today days => ⟨rfl, rfl, rfl, rfl,
    (by simp only [comparisonWindow, primaryWindow]; ring),
    fun d hd hd' => ?_⟩, by decide, by decide⟩
  have h1 := hd.2
  have h2 := hd'.1
  simp only [comparisonWindow, primaryWindow, inWindow] at h1 h2
  omega

/-- Witness for C3: the shared-day clause applied at `today = 100`,
`days = 7`, `d = 93`. -/
theorem comparison_window_spec_witness : (93 : ℤ) = 100 - 7 :=
  (comparison_window_spec.1 100 7).2.2.2.2.2 93 ⟨by decide, by decide⟩
    ⟨by decide, by decide⟩

/-- C4: the sentinel `"全部"` is normalized to an absent selection and emits
no filter; each present selection becomes an `equals` predicate, both
present selections land in a single group (implicit AND); with both absent
the request carries no `dimensionFilterGroups` field at all. -/
theorem filter_request_spec :
    (normalizeSelection "全部" = none) ∧
    (∀ s : String, s ≠ "全部" → normalizeSelection s = some s) ∧
    (∀ sd ed dims rl,
      (buildRequest sd ed dims rl none none).dimensionFilterGroups = none) ∧
    (∀ sd ed dims rl s, s ≠ "" →
      (buildRequest sd ed dims rl (some s) none).dimensionFilterGroups =
        some [[⟨"device", "equals", s⟩]]) ∧
    (∀ sd ed dims rl c, c ≠ "" →
      (buildRequest sd ed dims rl none (some c)).dimensionFilterGroups =
        some [[⟨"country", "equals", c⟩]]) ∧
    (∀ sd ed dims rl s c, s ≠ "" → c ≠ "" →
      (buildRequest sd ed dims rl (some s) (some c)).dimensionFilterGroups =
        some [[⟨"device", "equals", s⟩, ⟨"country", "equals", c⟩]]) := by
  refine ⟨rfl, fun s hs => by simp [normalizeSelection, hs],
    fun sd ed dims rl => by simp [buildRequest, filtersFor],
    fun sd ed dims rl s hs => by simp [buildRequest, filtersFor, hs],
    fun sd ed dims rl c hc => by simp [buildRequest, filtersFor, hc],
    fun sd ed dims rl s c hs hc => by simp [buildRequest, filtersFor, hs, hc]⟩

/-- Witness for C4: both filters present at concrete selections. -/
theorem filter_request_spec_witness :
    (buildRequest "2024-03-01" "2024-03-31" ["query"] 1000
        (some "mobile") (some "usa")).dimensionFilterGroups =
      some [[⟨"device", "equals", "mobile"⟩,
             ⟨"country", "equals", "usa"⟩]] :=
  filter_request_spec.2.2.2.2.2 "2024-03-01" "2024-03-31" ["query"] 1000
    "mobile" "usa" (by decide) (by decide)

/-- C5: when the provider reports an API-level error, `get_sites` returns
the empty list and `query_data` returns the empty result set; neither
operation propagates the error value to its caller. -/
theorem provider_error_yields_empty :
    (∀ e : HttpErr, get_sites (.error e) = []) ∧
    (∀ (sd ed : String) (dims : List String) (rl : ℕ)
      (dt c : Option String)
      (provider : GSCRequest → Except HttpErr QueryResponse) (e : HttpErr),
      provider (buildRequest sd ed dims rl dt c) = .error e →
        query_data sd ed dims rl dt c provider = []) := by
  refine ⟨fun e => rfl, fun sd ed dims rl dt c provider e h => ?_⟩
  simp [query_data, h]

/-- Witness for C5: a provider that always fails with HTTP 500. -/
theorem provider_error_yields_empty_witness :
    query_data "2024-03-01" "2024-03-31" ["query"] 1000 none none
      (fun _ => .error ⟨500, "backend error"⟩) = [] :=
  provider_error_yields_empty.2 "2024-03-01" "2024-03-31" ["query"] 1000
    none none (fun _ => .error ⟨500, "backend error"⟩)
    ⟨500, "backend error"⟩ rfl

/-- Helper: taking the first `n` elements of a stable sort yields a prefix
that is sorted, is completed to a permutation of the input by the dropped
suffix, and is bounded by every dropped element. -/
theorem insertionSort_take_spec {α : Type} (r : α → α → Prop)
    [DecidableRel r] (total : ∀ a b, r a b ∨ r b a)
    (htrans : ∀ {a b c}, r a b → r b c → r a c) (l : List α) (n : ℕ) :
    l.Perm ((l.insertionSort r).take n ++ (l.insertionSort r).drop n) ∧
    ((l.insertionSort r).take n).Sorted r ∧
    ∀ x ∈ (l.insertionSort r).take n, ∀ y ∈ (l.insertionSort r).drop n,
      r x y := by
  have hs : (l.insertionSort r).Sorted r :=
    @List.sorted_insertionSort α r _ ⟨total⟩
      ⟨fun a b c hab hbc => htrans hab hbc⟩ l
  refine ⟨?_, ?_, ?_⟩
  · rw [List.take_append_drop]
    exact (List.perm_insertionSort r l).symm
  · exact List.Pairwise.sublist (List.take_sublist n _) hs
  · have hs' := hs
    rw [← List.take_append_drop n (l.insertionSort r)] at hs'
    exact (List.pairwise_append.mp hs').2.2

/-- Helper: for a sort key other than `"position"`, the selection is
`nlargest`. -/
theorem top_n_selection_ne_position (c : String) (hc : c ≠ "position")
    (n : ℕ) (df : List KeywordRow) :
    top_n_selection c n df = nlargestBy n (columnValue c) df := by
  simp [top_n_selection, hc]

/-- C6: top-N selection under sort key `"position"` takes the N smallest
positions in ascending order, and under `"clicks"`, `"impressions"` or
`"ctr"` the N largest column values in descending order: the selection is
sorted, every non-selected row is bounded by every selected one, and the
selection plus the rest permute the input; on positions `[5, 1, 9, 3]`
top-3 yields `[1, 3, 5]` and on clicks `[10, 50, 5, 20]` top-3 yields
`[50, 20, 10]`. -/
theorem topn_selection_spec :
    (∀ (df : List KeywordRow) (n : ℕ), ∃ rest : List KeywordRow,
      df.Perm (top_n_selection "position" n df ++ rest) ∧
      (top_n_selection "position" n df).Sorted
        (fun a b => a.position ≤ b.position) ∧
      ∀ x ∈ top_n_selection "position" n df, ∀ y ∈ rest,
        x.position ≤ y.position) ∧
    (∀ c : String, (c = "clicks" ∨ c = "impressions" ∨ c = "ctr") →
      ∀ (df : List KeywordRow) (n : ℕ), ∃ rest : List KeywordRow,
        df.Perm (top_n_selection c n df ++ rest) ∧
        (top_n_selection c n df).Sorted
          (fun a b => columnValue c b ≤ columnValue c a) ∧
        ∀ x ∈ top_n_selection c n df, ∀ y ∈ rest,
          columnValue c y ≤ columnValue c x) ∧
    ((top_n_selection "position" 3
        [⟨"q1", 10, 0, 0, 5⟩, ⟨"q2", 50, 0, 0, 1⟩,
         ⟨"q3", 5, 0, 0, 9⟩, ⟨"q4", 20, 0, 0, 3⟩]).map KeywordRow.position =
      [1, 3, 5]) ∧
    ((top_n_selection "clicks" 3
        [⟨"q1", 10, 0, 0, 5⟩, ⟨"q2", 50, 0, 0, 1⟩,
         ⟨"q3", 5, 0, 0, 9⟩, ⟨"q4", 20, 0, 0, 3⟩]).map KeywordRow.clicks =
      [50, 20, 10]) := by
  refine ⟨?_, ?_, by decide, by decide⟩
  · intro df n
    have h := insertionSort_take_spec
      (fun a b : KeywordRow => a.position ≤ b.position)
      (fun a b => le_total _ _) (fun hab hbc => le_trans hab hbc) df n
    refine ⟨(df.insertionSort
      fun a b : KeywordRow => a.position ≤ b.position).drop n, ?_, ?_, ?_⟩ <;>
      simp only [top_n_selection, if_pos rfl, nsmallestBy] <;>
      [exact h.1; exact h.2.1; exact h.2.2]
  · intro c hc df n
    have hcp : c ≠ "position" := by
      rcases hc with rfl | rfl | rfl <;> decide
    have h := insertionSort_take_spec
      (fun a b : KeywordRow => columnValue c b ≤ columnValue c a)
      (fun a b => le_total _ _) (fun hab hbc => le_trans hbc hab) df n
    rw [top_n_selection_ne_position c hcp]
    refine ⟨(df.insertionSort
      fun a b : KeywordRow => columnValue c b ≤ columnValue c a).drop n,
      ?_, ?_, ?_⟩ <;>
      simp only [nlargestBy] <;> [exact h.1; exact h.2.1; exact h.2.2]

/-- Witness for C6: the non-position clause applied at sort key `"clicks"`
on the empty result set. -/
theorem topn_selection_spec_witness :
    ∃ rest : List KeywordRow,
      ([] : List KeywordRow).Perm (top_n_selection "clicks" 0 [] ++ rest) ∧
      (top_n_selection "clicks" 0 []).Sorted
        (fun a b => columnValue "clicks" b ≤ columnValue "clicks" a) ∧
      ∀ x ∈ top_n_selection "clicks" 0 [], ∀ y ∈ rest,
        columnValue "clicks" y ≤ columnValue "clicks" x :=
  topn_selection_spec.2.1 "clicks" (Or.inl rfl) [] 0

/-- C7 counterexample: with a previous fetch cached and a new fetch that
returns no rows, `load_keyword_data` leaves the previous `keyword_data` in
place instead of replacing it with the new (empty) result set. -/
theorem load_keyword_data_keeps_stale :
    (load_keyword_data
        { keyword_data := some [⟨"old", 1, 2, 1, 3⟩],
          comparison_data := none } []).1.keyword_data =
      some [⟨"old", 1, 2, 1, 3⟩] ∧
    (load_keyword_data
        { keyword_data := some [⟨"old", 1, 2, 1, 3⟩],
          comparison_data := none } []).1.keyword_data ≠ some [] := by
  constructor <;> simp [load_keyword_data]

/-- C7 amended: `load_comparison_data` always overwrites the cached
comparison data wholesale, and `load_keyword_data` overwrites the cached
keyword data wholesale when its fetch is non-empty; but when the new fetch
returns no rows, `load_keyword_data` returns `None` and leaves the
session state (and so the previous fetch's keyword data) unchanged. -/
theorem session_overwrite_spec :
    (∀ (s : SessionState) (df : List KeywordRow), df ≠ [] →
      (load_keyword_data s df).1.keyword_data = some df ∧
      (load_keyword_data s df).1.comparison_data = s.comparison_data ∧
      (load_keyword_data s df).2 = some df) ∧
    (∀ (s : SessionState) (df : List KeywordRow), df = [] →
      load_keyword_data s df = (s, none)) ∧
    (∀ (s : SessionState) (df : List KeywordRow),
      (load_comparison_data s df).1.comparison_data = some df ∧
      (load_comparison_data s df).1.keyword_data = s.keyword_data ∧
      (load_comparison_data s df).2 = df) := by
  refine ⟨fun s df h => by simp [load_keyword_data, h],
    fun s df h => by simp [load_keyword_data, h],
    fun s df => by simp [load_comparison_data]⟩

/-- Witness for C7: a non-empty fetch overwrites the stale cache. -/
theorem session_overwrite_spec_witness :
    (load_keyword_data
        { keyword_data := some [⟨"old", 1, 2, 1, 3⟩],
          comparison_data := none }
        [⟨"new", 4, 8, 1, 2⟩]).1.keyword_data = some [⟨"new", 4, 8, 1, 2⟩] ∧
    (load_keyword_data
        { keyword_data := some [⟨"old", 1, 2, 1, 3⟩],
          comparison_data := none }
        [⟨"new", 4, 8, 1, 2⟩]).1.comparison_data =
      SessionState.comparison_data
        { keyword_data := some [⟨"old", 1, 2, 1, 3⟩],
          comparison_data := none } ∧
    (load_keyword_data
        { keyword_data := some [⟨"old", 1, 2, 1, 3⟩],
          comparison_data := none }
        [⟨"new", 4, 8, 1, 2⟩]).2 = some [⟨"new", 4, 8, 1, 2⟩] :=
  session_overwrite_spec.1
    { keyword_data := some [⟨"old", 1, 2, 1, 3⟩], comparison_data := none }
    [⟨"new", 4, 8, 1, 2⟩] (by simp)

/-- C9: the trend rows returned by `get_keyword_trend` (with the source's
mis-indented `df.sort_values('date')` applied as intended) are in ascending
date order. -/
theorem get_keyword_trend_sorted
    (resp : Except HttpErr (Option (List TrendRow))) :
    (get_keyword_trend resp).Sorted (fun a b => a.date ≤ b.date) := by
  match resp with
  | .error e => exact List.sorted_nil
  | .ok none => exact List.sorted_nil
  | .ok (some rows) =>
    exact @List.sorted_insertionSort TrendRow
      (fun a b => a.date ≤ b.date) _ ⟨fun a b => le_total _ _⟩
      ⟨fun a b c hab hbc => le_trans hab hbc⟩ rows

end GscDashboard
